import Mathlib

/-!
Verification of the `ffi-toolkit` crate: string/pointer marshaling at a C ABI
boundary and the panic-catching response wrapper `catch_panic_response`.

Modelling conventions (shallow embedding):
* A Rust byte string (`String`, `&str`, or the contents of a C buffer up to
  but excluding the null terminator) is a `List Nat` of byte values.
* A nullable C pointer to a string buffer is `Option (List Nat)`: `none` is
  the null pointer, `some bytes` is a non-null pointer whose pointee holds
  `bytes` followed by the terminator.
* A Rust panic (unwinding) is the `Except.error` channel of `Except`; the
  carried `List Nat` is the panic message bytes.  A plain return is
  `Except.ok`.  This keeps panics distinct from recoverable `Option`/status
  signalling, which the source never conflates with unwinding.
* Heap allocation of response objects (`Box::into_raw`) is explicit state
  passing over a `Heap` of numbered allocations, so that claims about
  "returns the same pointer" and "allocates nothing" are expressible.
-/

/-- UTF-8 encoding of a Unicode code point, as byte values. -/
def charUtf8 (c : Nat) : List Nat :=
  if c < 0x80 then [c]
  else if c < 0x800 then [0xC0 + c / 64, 0x80 + c % 64]
  else if c < 0x10000 then [0xE0 + c / 4096, 0x80 + c / 64 % 64, 0x80 + c % 64]
  else [0xF0 + c / 262144, 0x80 + c / 4096 % 64, 0x80 + c / 64 % 64, 0x80 + c % 64]

/-- The UTF-8 bytes of a Lean string literal; used to transcribe the Rust
string literals of the source. -/
def strBytes (s : String) : List Nat :=
  s.data.foldr (fun c acc => charUtf8 c.toNat ++ acc) []

/-- Rust std `CString::new`: succeeds iff the byte string has no interior
null byte, in which case the resulting C string holds exactly those bytes. -/
def CString.new (s : List Nat) : Option (List Nat) :=
  if 0 ∈ s then none else some s

/-- The panic message of Rust std `Option::unwrap` on a `None` value. -/
def unwrapNoneMsg : List Nat :=
  strBytes "called `Option::unwrap()` on a `None` value"

/-- Source `rust_str_to_c_str`: `CString::new(s.into()).unwrap().into_raw()`.
The `unwrap` panics (the `Except.error` channel) when `CString::new` fails,
i.e. exactly when `s` has an embedded null byte; otherwise the freshly
allocated buffer holding the bytes of `s` is handed to the caller. -/
def rust_str_to_c_str (s : List Nat) : Except (List Nat) (List Nat) :=
  match CString.new s with
  | some cstr => Except.ok cstr
  | none => Except.error unwrapNoneMsg

/-- True iff the byte is a UTF-8 continuation byte `0x80..=0xBF`. -/
def contB (b : Nat) : Bool := 0x80 ≤ b && b ≤ 0xBF

/-- Admissible second byte of a three-byte sequence headed by `b`
(`0xE0..=0xEF`), per Rust std `run_utf8_validation`. -/
def cont3First (b c1 : Nat) : Bool :=
  if b = 0xE0 then 0xA0 ≤ c1 && c1 ≤ 0xBF
  else if b = 0xED then 0x80 ≤ c1 && c1 ≤ 0x9F
  else contB c1

/-- Admissible second byte of a four-byte sequence headed by `b`
(`0xF0..=0xF4`), per Rust std `run_utf8_validation`. -/
def cont4First (b c1 : Nat) : Bool :=
  if b = 0xF0 then 0x90 ≤ c1 && c1 ≤ 0xBF
  else if b = 0xF4 then 0x80 ≤ c1 && c1 ≤ 0x8F
  else contB c1

/-- Rust std UTF-8 validity of a byte string (`str::from_utf8(..).is_ok()`);
every Rust `String`/`&str` satisfies this by construction. -/
def utf8Valid : List Nat → Bool
  | [] => true
  | b :: rest =>
    if b ≤ 0x7F then utf8Valid rest
    else if 0xC2 ≤ b && b ≤ 0xDF then
      match rest with
      | [] => false
      | c :: r => if contB c then utf8Valid r else false
    else if 0xE0 ≤ b && b ≤ 0xEF then
      match rest with
      | [] => false
      | c1 :: r1 =>
        if cont3First b c1 then
          match r1 with
          | [] => false
          | c2 :: r2 => if contB c2 then utf8Valid r2 else false
        else false
    else if 0xF0 ≤ b && b ≤ 0xF4 then
      match rest with
      | [] => false
      | c1 :: r1 =>
        if cont4First b c1 then
          match r1 with
          | [] => false
          | c2 :: r2 =>
            if contB c2 then
              match r2 with
              | [] => false
              | c3 :: r3 => if contB c3 then utf8Valid r3 else false
            else false
        else false
    else false

/-- UTF-8 bytes of U+FFFD REPLACEMENT CHARACTER. -/
def replBytes : List Nat := [0xEF, 0xBF, 0xBD]

/-- One step of Rust std `String::from_utf8_lossy` at the byte level, with a
step-count `fuel` so the recursion is structural: valid sequences are
copied; an invalid sequence is replaced by U+FFFD, skipping the maximal
valid prefix of the offending sequence (its `error_len`), resuming at the
first offending byte.  Each step consumes at least one byte, so any `fuel`
of at least the input length is enough. -/
def lossyGo : Nat → List Nat → List Nat
  | 0, _ => []
  | _ + 1, [] => []
  | fuel + 1, b :: rest =>
    if b ≤ 0x7F then b :: lossyGo fuel rest
    else if 0xC2 ≤ b && b ≤ 0xDF then
      match rest with
      | [] => replBytes
      | c :: r =>
        if contB c then b :: c :: lossyGo fuel r
        else replBytes ++ lossyGo fuel (c :: r)
    else if 0xE0 ≤ b && b ≤ 0xEF then
      match rest with
      | [] => replBytes
      | c1 :: r1 =>
        if cont3First b c1 then
          match r1 with
          | [] => replBytes
          | c2 :: r2 =>
            if contB c2 then b :: c1 :: c2 :: lossyGo fuel r2
            else replBytes ++ lossyGo fuel (c2 :: r2)
        else replBytes ++ lossyGo fuel (c1 :: r1)
    else if 0xF0 ≤ b && b ≤ 0xF4 then
      match rest with
      | [] => replBytes
      | c1 :: r1 =>
        if cont4First b c1 then
          match r1 with
          | [] => replBytes
          | c2 :: r2 =>
            if contB c2 then
              match r2 with
              | [] => replBytes
              | c3 :: r3 =>
                if contB c3 then b :: c1 :: c2 :: c3 :: lossyGo fuel r3
                else replBytes ++ lossyGo fuel (c3 :: r3)
            else replBytes ++ lossyGo fuel (c2 :: r2)
        else replBytes ++ lossyGo fuel (c1 :: r1)
    else replBytes ++ lossyGo fuel rest

/-- Rust std `String::from_utf8_lossy` at the byte level. -/
def from_utf8_lossy (l : List Nat) : List Nat := lossyGo l.length l

/-- Source `c_str_to_rust_str`: a null pointer yields `Cow::from("")`, a
non-null pointer is read up to the terminator (`CStr::from_ptr`) and decoded
by `to_string_lossy`. -/
def c_str_to_rust_str (x : Option (List Nat)) : List Nat :=
  match x with
  | none => strBytes ""
  | some bytes => from_utf8_lossy bytes

/-- Source `free_c_str` over an allocator state listing the live C-string
allocations, a pointer being its address: a non-null pointer is reclaimed
(`CString::from_raw` retakes ownership and drops), a null pointer leaves the
allocator untouched. -/
def free_c_str (h : List Nat) (ptr : Option Nat) : List Nat :=
  match ptr with
  | none => h
  | some a => h.erase a

/-- Source `cast_const`: `assert!(!x.is_null(), "Object argument was null")`
followed by a dereference.  The assertion failure is a panic
(`Except.error`), not a recoverable value; a non-null pointer yields its
pointee. -/
def cast_const {α : Type} (x : Option α) : Except (List Nat) α :=
  match x with
  | none => Except.error (strBytes "Object argument was null")
  | some v => Except.ok v

/-- Source `FCPResponseStatus` (C-ABI codes 0..3). -/
inductive FCPResponseStatus
  | FCPNoError
  | FCPUnclassifiedError
  | FCPCallerError
  | FCPReceiverError
deriving DecidableEq, Repr

/-- Allocator state for response objects: `next` is the next fresh address,
`mem` maps each live address to its pointee. -/
structure Heap (R : Type) where
  next : Nat
  mem : List (Nat × R)
deriving DecidableEq, Repr

/-- Source `raw_ptr` (`Box::into_raw(Box::new(thing))`): place `v` at a
fresh address and return the address together with the grown heap. -/
def raw_ptr {R : Type} (v : R) (h : Heap R) : Nat × Heap R :=
  (h.next, Heap.mk (h.next + 1) ((h.next, v) :: h.mem))

/-- Dereference an address in the heap. -/
def Heap.lookup {R : Type} (h : Heap R) (p : Nat) : Option R :=
  (h.mem.find? (fun e => e.1 == p)).map (fun e => e.2)

/-- The empty heap. -/
def hEmpty {R : Type} : Heap R := Heap.mk 0 []

/-- The `CodeAndMessage` trait together with the `Default` bound of
`catch_panic_response`, as an explicit method table for a response type. -/
structure CodeAndMessageImpl (R : Type) where
  dflt : R
  set_error : R → FCPResponseStatus × Option (List Nat) → R

/-- The payload of a Rust panic (`Box<dyn Any + Send>`): a `&'static str`
literal, an owned formatted `String`, or anything else. -/
inductive PanicPayload
  | staticStr (s : List Nat)
  | ownedString (s : List Nat)
  | other
deriving DecidableEq, Repr

/-- The `panic.downcast_ref::<&'static str>()` call of the source: succeeds
exactly on a static string payload. -/
def downcast_static_str : PanicPayload → Option (List Nat)
  | PanicPayload.staticStr s => some s
  | _ => none

/-- Source `catch_panic_response`.  The `callback` runs on the current heap
and either returns a pointer (`Except.ok`) or panics with a payload
(`Except.error`), possibly having allocated.  A returned pointer is passed
through unchanged.  A trapped panic is downcast to a static string (falling
back to "no unwind information"), the message `"Rust panic: <description>"`
is built by `CString::new(..).unwrap()` — which itself panics, propagating
out of the wrapper, if the description has an embedded null byte — and a
default response carrying `FCPUnclassifiedError` and that message is
allocated and returned. -/
def catch_panic_response {R : Type} (ops : CodeAndMessageImpl R)
    (callback : Heap R → Except PanicPayload Nat × Heap R) (h : Heap R) :
    Except (List Nat) (Nat × Heap R) :=
  match callback h with
  | (Except.ok return_value, h1) => Except.ok (return_value, h1)
  | (Except.error panicPayload, h1) =>
    let error_msg :=
      match downcast_static_str panicPayload with
      | some message => message
      | none => strBytes "no unwind information"
    match CString.new (strBytes "Rust panic: " ++ error_msg) with
    | none => Except.error unwrapNoneMsg
    | some message =>
      let response := ops.set_error ops.dflt
        (FCPResponseStatus.FCPUnclassifiedError, some message)
      Except.ok (raw_ptr response h1)

/-- The `BasicResponse` struct of the crate's own test suite: status code,
error-message pointer, and one domain-specific payload field `is_valid`. -/
structure BasicResponse where
  status_code : FCPResponseStatus
  error_msg : Option (List Nat)
  is_valid : Bool
deriving DecidableEq, Repr

/-- `Default for BasicResponse`: no error, null message, `is_valid` false. -/
def BasicResponse.dflt : BasicResponse :=
  BasicResponse.mk FCPResponseStatus.FCPNoError none false

/-- The `code_and_message_impl!` expansion for `BasicResponse`: assign the
status code and message fields, leave `is_valid` as it is. -/
def BasicResponse.set_error (r : BasicResponse)
    (cm : FCPResponseStatus × Option (List Nat)) : BasicResponse :=
  BasicResponse.mk cm.1 cm.2 r.is_valid

/-- Method table packaging `Default` and `CodeAndMessage` for
`BasicResponse`. -/
def basicOps : CodeAndMessageImpl BasicResponse :=
  CodeAndMessageImpl.mk BasicResponse.dflt BasicResponse.set_error

/-- With fuel at least the input length, lossy decoding leaves a valid
UTF-8 byte string untouched. -/
theorem lossyGo_of_valid : ∀ (fuel : Nat) (l : List Nat), l.length ≤ fuel →
    utf8Valid l = true → lossyGo fuel l = l := by
  intro fuel
  induction fuel with
  | zero =>
    intro l hl _
    cases l with
    | nil => rfl
    | cons b rest => simp at hl
  | succ n ih =>
    intro l hl hv
    cases l with
    | nil => rfl
    | cons b rest =>
      simp only [List.length_cons] at hl
      by_cases h1 : b ≤ 0x7F
      · have hv2 : utf8Valid rest = true := by
          rw [utf8Valid.eq_def] at hv
          simpa [h1] using hv
        rw [lossyGo.eq_def]
        simp [h1, ih rest (by omega) hv2]
      · by_cases h2 : 0xC2 ≤ b ∧ b ≤ 0xDF
        · cases rest with
          | nil =>
            rw [utf8Valid.eq_def] at hv
            simp [h1, h2.1, h2.2] at hv
          | cons c r =>
            simp only [List.length_cons] at hl
            by_cases hc : contB c = true
            · have hv2 : utf8Valid r = true := by
                rw [utf8Valid.eq_def] at hv
                simpa [h1, h2.1, h2.2, hc] using hv
              rw [lossyGo.eq_def]
              simp [h1, h2.1, h2.2, hc, ih r (by omega) hv2]
            · exfalso
              rw [utf8Valid.eq_def] at hv
              simp [h1, h2.1, h2.2, hc] at hv
        · by_cases h3 : 0xE0 ≤ b ∧ b ≤ 0xEF
          · cases rest with
            | nil =>
              rw [utf8Valid.eq_def] at hv
              simp [h1, h2, h3.1, h3.2] at hv
            | cons c1 r1 =>
              simp only [List.length_cons] at hl
              by_cases hc1 : cont3First b c1 = true
              · cases r1 with
                | nil =>
                  rw [utf8Valid.eq_def] at hv
                  simp [h1, h2, h3.1, h3.2, hc1] at hv
                | cons c2 r2 =>
                  simp only [List.length_cons] at hl
                  by_cases hc2 : contB c2 = true
                  · have hv2 : utf8Valid r2 = true := by
                      rw [utf8Valid.eq_def] at hv
                      simpa [h1, h2, h3.1, h3.2, hc1, hc2] using hv
                    rw [lossyGo.eq_def]
                    simp [h1, h2, h3.1, h3.2, hc1, hc2, ih r2 (by omega) hv2]
                  · exfalso
                    rw [utf8Valid.eq_def] at hv
                    simp [h1, h2, h3.1, h3.2, hc1, hc2] at hv
              · exfalso
                rw [utf8Valid.eq_def] at hv
                simp [h1, h2, h3.1, h3.2, hc1] at hv
          · by_cases h4 : 0xF0 ≤ b ∧ b ≤ 0xF4
            · cases rest with
              | nil =>
                rw [utf8Valid.eq_def] at hv
                simp [h1, h2, h3, h4.1, h4.2] at hv
              | cons c1 r1 =>
                simp only [List.length_cons] at hl
                by_cases hc1 : cont4First b c1 = true
                · cases r1 with
                  | nil =>
                    rw [utf8Valid.eq_def] at hv
                    simp [h1, h2, h3, h4.1, h4.2, hc1] at hv
                  | cons c2 r2 =>
                    simp only [List.length_cons] at hl
                    by_cases hc2 : contB c2 = true
                    · cases r2 with
                      | nil =>
                        rw [utf8Valid.eq_def] at hv
                        simp [h1, h2, h3, h4.1, h4.2, hc1, hc2] at hv
                      | cons c3 r3 =>
                        simp only [List.length_cons] at hl
                        by_cases hc3 : contB c3 = true
                        · have hv2 : utf8Valid r3 = true := by
                            rw [utf8Valid.eq_def] at hv
                            simpa [h1, h2, h3, h4.1, h4.2, hc1, hc2, hc3] using hv
                          rw [lossyGo.eq_def]
                          simp [h1, h2, h3, h4.1, h4.2, hc1, hc2, hc3,
                            ih r3 (by omega) hv2]
                        · exfalso
                          rw [utf8Valid.eq_def] at hv
                          simp [h1, h2, h3, h4.1, h4.2, hc1, hc2, hc3] at hv
                    · exfalso
                      rw [utf8Valid.eq_def] at hv
                      simp [h1, h2, h3, h4.1, h4.2, hc1, hc2] at hv
                · exfalso
                  rw [utf8Valid.eq_def] at hv
                  simp [h1, h2, h3, h4.1, h4.2, hc1] at hv
            · exfalso
              rw [utf8Valid.eq_def] at hv
              simp [h1, h2, h3, h4] at hv

/-- Lossy decoding leaves a valid UTF-8 byte string untouched (Rust returns
`Cow::Borrowed` in this case). -/
theorem from_utf8_lossy_of_valid (l : List Nat) (h : utf8Valid l = true) :
    from_utf8_lossy l = l :=
  lossyGo_of_valid l.length l le_rfl h

/-- Reading back the address just allocated yields the allocated value. -/
theorem Heap.lookup_raw_ptr {R : Type} (h : Heap R) (v : R) :
    Heap.lookup (raw_ptr v h).2 (raw_ptr v h).1 = some v := by
  simp [raw_ptr, Heap.lookup, List.find?]

/-- The closure of the crate's `does_panic_with_catch_panic_response` test:
`|| panic!("I do panic")`, a panic with a static string payload. -/
def cbPanicStatic : Heap BasicResponse → Except PanicPayload Nat × Heap BasicResponse :=
  fun h => (Except.error (PanicPayload.staticStr (strBytes "I do panic")), h)

/-- An operation panicking with a static string payload that carries an
embedded null byte. -/
def cbNullPanic : Heap BasicResponse → Except PanicPayload Nat × Heap BasicResponse :=
  fun h => (Except.error (PanicPayload.staticStr (strBytes "oops" ++ 0 :: strBytes "x")), h)

/-- An operation that completes normally after setting a recoverable
`FCPCallerError` on the response it allocates and returns. -/
def cbCallerError : Heap BasicResponse → Except PanicPayload Nat × Heap BasicResponse :=
  fun h =>
    match raw_ptr (BasicResponse.mk FCPResponseStatus.FCPCallerError
        (some (strBytes "bad argument")) false) h with
    | (p, h1) => (Except.ok p, h1)

/-- An operation panicking with a payload that is neither a static string
nor an owned string. -/
def cbPanicOther : Heap BasicResponse → Except PanicPayload Nat × Heap BasicResponse :=
  fun h => (Except.error PanicPayload.other, h)

/-- An operation panicking with an owned, formatted `String` payload (as
produced by `panic!` with interpolated arguments). -/
def cbPanicOwned : Heap BasicResponse → Except PanicPayload Nat × Heap BasicResponse :=
  fun h => (Except.error (PanicPayload.ownedString (strBytes "failed at index 3")), h)

/-- Unfolding `catch_panic_response` on a panicking callback. -/
theorem catch_panic_panicked {R : Type} (ops : CodeAndMessageImpl R)
    (cb : Heap R → Except PanicPayload Nat × Heap R) (h h1 : Heap R)
    (payload : PanicPayload) (hcb : cb h = (Except.error payload, h1)) :
    catch_panic_response ops cb h =
      (match CString.new (strBytes "Rust panic: " ++
          (match downcast_static_str payload with
           | some m => m
           | none => strBytes "no unwind information")) with
       | none => Except.error unwrapNoneMsg
       | some message =>
         Except.ok (raw_ptr (ops.set_error ops.dflt
           (FCPResponseStatus.FCPUnclassifiedError, some message)) h1)) := by
  unfold catch_panic_response
  rw [hcb]

/-- The failure path for a static-string panic description free of null
bytes: a fresh default response stamped with `FCPUnclassifiedError` and the
prefixed message is allocated. -/
theorem catch_panic_static_eq (cb : Heap BasicResponse → Except PanicPayload Nat × Heap BasicResponse)
    (h h1 : Heap BasicResponse) (D : List Nat)
    (hcb : cb h = (Except.error (PanicPayload.staticStr D), h1)) (hD : ¬ 0 ∈ D) :
    catch_panic_response basicOps cb h =
      Except.ok (raw_ptr (BasicResponse.mk FCPResponseStatus.FCPUnclassifiedError
        (some (strBytes "Rust panic: " ++ D)) false) h1) := by
  rw [catch_panic_panicked basicOps cb h h1 _ hcb]
  have hmem : ¬ 0 ∈ strBytes "Rust panic: " ++ D := by
    intro hmem
    rcases List.mem_append.mp hmem with hx | hx
    · exact absurd hx (by decide)
    · exact hD hx
  simp [downcast_static_str, CString.new, hmem, basicOps, BasicResponse.set_error,
    BasicResponse.dflt]

/-- The failure path for a panic payload that is not a static string: the
fallback description "no unwind information" is used. -/
theorem catch_panic_fallback_eq (cb : Heap BasicResponse → Except PanicPayload Nat × Heap BasicResponse)
    (h h1 : Heap BasicResponse) (payload : PanicPayload)
    (hcb : cb h = (Except.error payload, h1))
    (hdc : downcast_static_str payload = none) :
    catch_panic_response basicOps cb h =
      Except.ok (raw_ptr (BasicResponse.mk FCPResponseStatus.FCPUnclassifiedError
        (some (strBytes "Rust panic: no unwind information")) false) h1) := by
  rw [catch_panic_panicked basicOps cb h h1 _ hcb, hdc]
  have heq : strBytes "Rust panic: " ++ strBytes "no unwind information" =
      strBytes "Rust panic: no unwind information" := by decide
  rw [heq]
  have hmem : ¬ 0 ∈ strBytes "Rust panic: no unwind information" := by decide
  simp [CString.new, hmem, basicOps, BasicResponse.set_error, BasicResponse.dflt]

/-- C1 (amended): for every operation that panics with a static-string
description `D` containing no null byte, `catch_panic_response` returns a
pointer to a response whose status code is `FCPUnclassifiedError`, whose
error-message pointer is non-null with message text exactly
"Rust panic: " followed by `D`, and whose domain-specific field `is_valid`
equals its Default-construction value `false`. -/
theorem claim1_static_panic_response
    (cb : Heap BasicResponse → Except PanicPayload Nat × Heap BasicResponse)
    (h h1 : Heap BasicResponse) (D : List Nat)
    (hcb : cb h = (Except.error (PanicPayload.staticStr D), h1)) (hD : ¬ 0 ∈ D) :
    ∃ p h2, catch_panic_response basicOps cb h = Except.ok (p, h2) ∧
      h2.lookup p = some (BasicResponse.mk FCPResponseStatus.FCPUnclassifiedError
        (some (strBytes "Rust panic: " ++ D)) false) :=
  ⟨_, _, catch_panic_static_eq cb h h1 D hcb hD, Heap.lookup_raw_ptr h1 _⟩

/-- C1 witness: the test operation panicking with "I do panic" yields a
response with status `FCPUnclassifiedError`, message "Rust panic: I do
panic", and `is_valid` false. -/
theorem claim1_witness :
    ∃ p h2, catch_panic_response basicOps cbPanicStatic hEmpty = Except.ok (p, h2) ∧
      h2.lookup p = some (BasicResponse.mk FCPResponseStatus.FCPUnclassifiedError
        (some (strBytes "Rust panic: I do panic")) false) := by
  have h := claim1_static_panic_response cbPanicStatic hEmpty hEmpty
    (strBytes "I do panic") rfl (by decide)
  have heq : strBytes "Rust panic: " ++ strBytes "I do panic" =
      strBytes "Rust panic: I do panic" := by decide
  rw [heq] at h
  exact h

/-- C1 counterexample: for the operation panicking with the static
description "oops\x00x" — a description with an embedded null byte — the
wrapper returns no response pointer at all: its own message construction
(`CString::new(..).unwrap()`) panics instead. -/
theorem claim1_counterexample :
    catch_panic_response basicOps cbNullPanic hEmpty = Except.error unwrapNoneMsg := by
  rfl

/-- C2 (confirmed): for every operation that completes without panicking,
`catch_panic_response` returns exactly the pointer the operation returned,
and the final heap is exactly the operation's final heap — the wrapper
allocates no response of its own on this path — even when the operation
already set a recoverable error on its response. -/
theorem claim2_passthrough {R : Type} (ops : CodeAndMessageImpl R)
    (cb : Heap R → Except PanicPayload Nat × Heap R) (h h1 : Heap R) (p : Nat)
    (hcb : cb h = (Except.ok p, h1)) :
    catch_panic_response ops cb h = Except.ok (p, h1) := by
  unfold catch_panic_response
  rw [hcb]

/-- C2 witness: an operation that allocates a response carrying a
recoverable `FCPCallerError` and returns its pointer is passed through
unchanged, with no extra allocation. -/
theorem claim2_witness :
    catch_panic_response basicOps cbCallerError hEmpty =
      Except.ok (0, Heap.mk 1 [(0, BasicResponse.mk FCPResponseStatus.FCPCallerError
        (some (strBytes "bad argument")) false)]) :=
  claim2_passthrough basicOps cbCallerError hEmpty _ 0 rfl

/-- C3 (amended): for every input text containing an embedded null byte,
`rust_str_to_c_str` panics — `CString::new` fails and the `unwrap` on its
result crashes — rather than returning a recoverable none/absence signal;
the input is neither truncated nor substituted. -/
theorem claim3_embedded_null_panics (s : List Nat) (hs : 0 ∈ s) :
    rust_str_to_c_str s = Except.error unwrapNoneMsg := by
  simp [rust_str_to_c_str, CString.new, hs]

/-- C3 witness: the input "a\x00" makes `rust_str_to_c_str` panic. -/
theorem claim3_witness :
    rust_str_to_c_str (strBytes "a" ++ [0]) = Except.error unwrapNoneMsg :=
  claim3_embedded_null_panics (strBytes "a" ++ [0]) (by decide)

/-- C3 counterexample: on the input "\x00a", which contains an embedded
null byte, `rust_str_to_c_str` does not return a recoverable failure
signal: the `unwrap` inside it panics. -/
theorem claim3_counterexample :
    rust_str_to_c_str (0 :: strBytes "a") = Except.error unwrapNoneMsg := by
  rfl

/-- C4 (confirmed): for every text `s` with no null byte (a Rust string, so
valid UTF-8), encoding then decoding yields `s` again:
`c_str_to_rust_str (rust_str_to_c_str s) = s`. -/
theorem claim4_round_trip (s : List Nat) (h0 : ¬ 0 ∈ s) (hv : utf8Valid s = true) :
    ∃ c, rust_str_to_c_str s = Except.ok c ∧ c_str_to_rust_str (some c) = s := by
  refine ⟨s, ?_, ?_⟩
  · simp [rust_str_to_c_str, CString.new, h0]
  · show from_utf8_lossy s = s
    exact from_utf8_lossy_of_valid s hv

/-- C4 witness: the round trip on "hello FFI". -/
theorem claim4_witness :
    ∃ c, rust_str_to_c_str (strBytes "hello FFI") = Except.ok c ∧
      c_str_to_rust_str (some c) = strBytes "hello FFI" :=
  claim4_round_trip (strBytes "hello FFI") (by decide) (by decide)

/-- C5 (confirmed): decoding the null pointer yields the empty text value;
`c_str_to_rust_str` is total, so no error is ever signalled. -/
theorem claim5_null_decodes_empty : c_str_to_rust_str none = strBytes "" := rfl

/-- C6 (confirmed): freeing the null pointer is a no-op on the allocator
state. -/
theorem claim6_free_null_noop (h : List Nat) : free_c_str h none = h := rfl

/-- C7 (confirmed): `cast_const` fails — with the fatal assertion panic
"Object argument was null", its only failure channel — exactly when the
pointer is null, and for every non-null pointer it returns the pointee
with no assertion firing. -/
theorem claim7_cast_const (α : Type) :
    cast_const (none : Option α) = Except.error (strBytes "Object argument was null") ∧
    (∀ x : Option α, (∃ m, cast_const x = Except.error m) ↔ x = none) ∧
    (∀ v : α, cast_const (some v) = Except.ok v) := by
  refine ⟨rfl, ?_, fun v => rfl⟩
  intro x
  constructor
  · intro hm
    obtain ⟨m, hm⟩ := hm
    cases x with
    | none => rfl
    | some v => simp [cast_const] at hm
  · intro hx
    subst hx
    exact ⟨strBytes "Object argument was null", rfl⟩

/-- C7 witness: the assertion fires on the null pointer and a non-null
pointer to the value 3 dereferences to 3. -/
theorem claim7_witness :
    (∃ m, cast_const (none : Option Nat) = Except.error m) ∧
    cast_const (some 3) = Except.ok 3 :=
  ⟨((claim7_cast_const Nat).2.1 none).mpr rfl, (claim7_cast_const Nat).2.2 3⟩

/-- C8 (confirmed): for every operation panicking with a payload from which
no static-string description can be extracted, the response carries the
message text exactly "Rust panic: no unwind information". -/
theorem claim8_no_unwind_information
    (cb : Heap BasicResponse → Except PanicPayload Nat × Heap BasicResponse)
    (h h1 : Heap BasicResponse) (payload : PanicPayload)
    (hcb : cb h = (Except.error payload, h1))
    (hdc : downcast_static_str payload = none) :
    ∃ p h2, catch_panic_response basicOps cb h = Except.ok (p, h2) ∧
      h2.lookup p = some (BasicResponse.mk FCPResponseStatus.FCPUnclassifiedError
        (some (strBytes "Rust panic: no unwind information")) false) :=
  ⟨_, _, catch_panic_fallback_eq cb h h1 payload hcb hdc, Heap.lookup_raw_ptr h1 _⟩

/-- C8 witness: a panic with a non-string payload yields the fallback
message. -/
theorem claim8_witness :
    ∃ p h2, catch_panic_response basicOps cbPanicOther hEmpty = Except.ok (p, h2) ∧
      h2.lookup p = some (BasicResponse.mk FCPResponseStatus.FCPUnclassifiedError
        (some (strBytes "Rust panic: no unwind information")) false) :=
  claim8_no_unwind_information cbPanicOther hEmpty hEmpty PanicPayload.other rfl rfl

/-- C9 (confirmed): for every operation panicking with an owned, formatted
`String` payload, the `downcast_ref::<&'static str>` fails, so the response
carries the fallback message "Rust panic: no unwind information" even
though the payload does carry a human-readable description. -/
theorem claim9_owned_string_fallback
    (cb : Heap BasicResponse → Except PanicPayload Nat × Heap BasicResponse)
    (h h1 : Heap BasicResponse) (s : List Nat)
    (hcb : cb h = (Except.error (PanicPayload.ownedString s), h1)) :
    ∃ p h2, catch_panic_response basicOps cb h = Except.ok (p, h2) ∧
      h2.lookup p = some (BasicResponse.mk FCPResponseStatus.FCPUnclassifiedError
        (some (strBytes "Rust panic: no unwind information")) false) :=
  ⟨_, _, catch_panic_fallback_eq cb h h1 (PanicPayload.ownedString s) hcb rfl,
    Heap.lookup_raw_ptr h1 _⟩

/-- C9 witness: an operation panicking with the owned string "failed at
index 3" still yields the fallback message. -/
theorem claim9_witness :
    ∃ p h2, catch_panic_response basicOps cbPanicOwned hEmpty = Except.ok (p, h2) ∧
      h2.lookup p = some (BasicResponse.mk FCPResponseStatus.FCPUnclassifiedError
        (some (strBytes "Rust panic: no unwind information")) false) :=
  claim9_owned_string_fallback cbPanicOwned hEmpty hEmpty
    (strBytes "failed at index 3") rfl

/-- C10 (confirmed): on the failure path the error-message construction
succeeds for every static panic description containing no embedded null
byte, and for the panic payload "oops\x00x" — a static string with an
embedded null byte — the wrapper itself panics instead of returning a
response. -/
theorem claim10_message_construction :
    (∀ (cb : Heap BasicResponse → Except PanicPayload Nat × Heap BasicResponse)
       (h h1 : Heap BasicResponse) (D : List Nat),
        cb h = (Except.error (PanicPayload.staticStr D), h1) → ¬ 0 ∈ D →
        ∃ p h2, catch_panic_response basicOps cb h = Except.ok (p, h2)) ∧
    catch_panic_response basicOps cbNullPanic hEmpty = Except.error unwrapNoneMsg := by
  constructor
  · intro cb h h1 D hcb hD
    exact ⟨_, _, catch_panic_static_eq cb h h1 D hcb hD⟩
  · rfl

/-- C10 witness: the message construction succeeds on the concrete
description "I do panic", and the wrapper panics on the null-byte
payload. -/
theorem claim10_witness :
    (∃ p h2, catch_panic_response basicOps cbPanicStatic hEmpty = Except.ok (p, h2)) ∧
    catch_panic_response basicOps cbNullPanic hEmpty = Except.error unwrapNoneMsg :=
  ⟨claim10_message_construction.1 cbPanicStatic hEmpty hEmpty
      (strBytes "I do panic") rfl (by decide),
    claim10_message_construction.2⟩
